import Mathlib

/-!
Shallow embedding of the openqml-pq ProjectQ plugin
(openqml_pq/projectq.py): the static operator name-translation table,
the per-device operator and observable maps, keyword-argument handling,
gate application, the qubit-deallocation workaround, and the
expectation-value post-processing of the device classes.

Python dictionaries are modelled as insertion-ordered association lists
with unique keys, Python exceptions as an error type threaded through
Except, and the wrapped ProjectQ engine as an oracle parameter.
-/

/-- ProjectQ gate classes imported by the plugin (projectq.ops and the
plugin's own ops module); distinct Python classes are distinct
constructors. -/
inductive GateCtor where
  | XGate
  | YGate
  | ZGate
  | HGate
  | SGate
  | TGate
  | SqrtXGate
  | SwapGate
  | SqrtSwapGate
  | Rx
  | Ry
  | Rz
  | R
  | StatePreparation
  | CNOT
  | CZ
  | Toffoli
  | AllZGate
  | Rot
  | QubitUnitary
  deriving DecidableEq, Repr

/-- The Python exceptions the modelled code can raise. -/
inductive PyErr where
  | deviceError
  | valueError
  | keyError
  | indexError
  deriving DecidableEq, Repr

/-- Python values appearing as keyword-argument values in the modelled
code: ints, strings and bools. -/
inductive PyVal where
  | int (n : Int)
  | str (s : String)
  | bool (b : Bool)
  deriving DecidableEq, Repr

/-- Python isinstance(v, int): holds for ints and also for bools, since
bool is a subclass of int in Python. -/
def PyVal.isInstInt : PyVal → Bool
  | .int _ => true
  | .bool _ => true
  | .str _ => false

/-- Numeric value of a Python int-like value (True is 1, False is 0). -/
def PyVal.toInt : PyVal → Int
  | .int n => n
  | .bool b => if b then 1 else 0
  | .str _ => 0

/-- Lookup in a Python dict modelled as an association list: the value
of the first entry with the given key. -/
def dictLookup {α : Type} : List (String × α) → String → Option α
  | [], _ => none
  | (k, v) :: rest, key => if k = key then some v else dictLookup rest key

/-- Python membership test (key in dict). -/
def hasKey {α : Type} (d : List (String × α)) (k : String) : Bool :=
  (dictLookup d k).isSome

/-- Python dict.setdefault: insert at the end when the key is absent. -/
def setdefault {α : Type} (d : List (String × α)) (k : String) (v : α) :
    List (String × α) :=
  if hasKey d k then d else d ++ [(k, v)]

/-- Python del d[k]: remove the entry with the given key. -/
def delKey {α : Type} (d : List (String × α)) (k : String) : List (String × α) :=
  d.filter (fun kv => decide (kv.1 ≠ k))

/-- Python d[k] = v: overwrite in place when present, append otherwise. -/
def setKey {α : Type} (d : List (String × α)) (k : String) (v : α) :
    List (String × α) :=
  if hasKey d k then d.map (fun kv => if kv.1 = k then (k, v) else kv)
  else d ++ [(k, v)]

/-- The static name-translation table projectq_operator_map of the
plugin, in source order. -/
def projectq_operator_map : List (String × GateCtor) :=
  [ ("PauliX", GateCtor.XGate),
    ("PauliY", GateCtor.YGate),
    ("PauliZ", GateCtor.ZGate),
    ("CNOT", GateCtor.CNOT),
    ("CZ", GateCtor.CZ),
    ("SWAP", GateCtor.SwapGate),
    ("RX", GateCtor.Rx),
    ("RY", GateCtor.Ry),
    ("RZ", GateCtor.Rz),
    ("PhaseShift", GateCtor.R),
    ("QubitStateVector", GateCtor.StatePreparation),
    ("Hadamard", GateCtor.HGate),
    ("S", GateCtor.SGate),
    ("T", GateCtor.TGate),
    ("SqrtX", GateCtor.SqrtXGate),
    ("SqrtSwap", GateCtor.SqrtSwapGate),
    ("Rot", GateCtor.Rot),
    ("QubitUnitary", GateCtor.QubitUnitary) ]

/-- ProjectQSimulator._operator_map: the full translation table. -/
def ProjectQSimulator._operator_map : List (String × GateCtor) :=
  projectq_operator_map

/-- ProjectQSimulator._observable_map: the entries of its operator map
whose value is one of XGate, YGate, ZGate, AllZGate. -/
def ProjectQSimulator._observable_map : List (String × GateCtor) :=
  ProjectQSimulator._operator_map.filter (fun kv =>
    decide (kv.2 ∈ [GateCtor.XGate, GateCtor.YGate, GateCtor.ZGate, GateCtor.AllZGate]))

/-- ProjectQClassicalSimulator._operator_map: the entries of the
translation table whose value is XGate or CNOT. -/
def ProjectQClassicalSimulator._operator_map : List (String × GateCtor) :=
  projectq_operator_map.filter (fun kv =>
    decide (kv.2 ∈ [GateCtor.XGate, GateCtor.CNOT]))

/-- ProjectQClassicalSimulator._observable_map: the entries of its
operator map whose value is ZGate or AllZGate. -/
def ProjectQClassicalSimulator._observable_map : List (String × GateCtor) :=
  ProjectQClassicalSimulator._operator_map.filter (fun kv =>
    decide (kv.2 ∈ [GateCtor.ZGate, GateCtor.AllZGate]))

/-- ProjectQIBMBackend._operator_map: the entries of the translation
table whose value lies in the listed IBM-supported gate classes. -/
def ProjectQIBMBackend._operator_map : List (String × GateCtor) :=
  projectq_operator_map.filter (fun kv =>
    decide (kv.2 ∈ [GateCtor.HGate, GateCtor.XGate, GateCtor.YGate, GateCtor.ZGate,
      GateCtor.SGate, GateCtor.TGate, GateCtor.SqrtXGate, GateCtor.SwapGate,
      GateCtor.Rx, GateCtor.Ry, GateCtor.Rz, GateCtor.R,
      GateCtor.CNOT, GateCtor.CZ]))

/-- ProjectQIBMBackend._observable_map: the entries of its operator map
whose value is ZGate or AllZGate. -/
def ProjectQIBMBackend._observable_map : List (String × GateCtor) :=
  ProjectQIBMBackend._operator_map.filter (fun kv =>
    decide (kv.2 ∈ [GateCtor.ZGate, GateCtor.AllZGate]))

/-- ProjectQSimulator._backend_kwargs. -/
def ProjectQSimulator._backend_kwargs : List String :=
  ["gate_fusion", "rnd_seed"]

/-- ProjectQClassicalSimulator._backend_kwargs. -/
def ProjectQClassicalSimulator._backend_kwargs : List String := []

/-- ProjectQIBMBackend._backend_kwargs. -/
def ProjectQIBMBackend._backend_kwargs : List String :=
  ["use_hardware", "num_runs", "verbose", "user", "password", "device",
   "retrieve_execution"]

/-- ProjectQDevice.filter_kwargs_for_backend: keep exactly the entries
whose key occurs in the device's _backend_kwargs list. -/
def ProjectQDevice.filter_kwargs_for_backend (backend_kwargs : List String)
    (kwargs : List (String × PyVal)) : List (String × PyVal) :=
  kwargs.filter (fun kv => decide (kv.1 ∈ backend_kwargs))

/-- State of a ProjectQDevice after construction: the wire count, the
backend value taken from kwargs, the remaining kwargs, the n_eval
attribute when the num_runs branch set it, and the engine and register
handles (None right after construction). -/
structure ProjectQDeviceState where
  wires : Nat
  backend : PyVal
  kwargs : List (String × PyVal)
  n_eval : Option Int
  eng : Option Unit
  reg : Option (List Nat)
  deriving DecidableEq, Repr

/-- ProjectQDevice.__init__ keyword-argument processing: default shots
to 0, copy log to verbose, clean num_runs (bools count as ints), then
pop the backend entry into an attribute. -/
def ProjectQDevice.init (wires : Nat) (kwargs0 : List (String × PyVal)) :
    Except PyErr ProjectQDeviceState :=
  let kwargs1 := setdefault kwargs0 "shots" (PyVal.int 0)
  let kwargs2 :=
    match dictLookup kwargs1 "log" with
    | some v => setdefault kwargs1 "verbose" v
    | none => kwargs1
  let step3 : Option Int × List (String × PyVal) :=
    match dictLookup kwargs2 "num_runs" with
    | some v =>
        if v.isInstInt ∧ v.toInt > 0 then (some v.toInt, kwargs2)
        else (some 0, delKey kwargs2 "num_runs")
    | none => (none, kwargs2)
  match dictLookup step3.2 "backend" with
  | none => Except.error PyErr.keyError
  | some b =>
      Except.ok ⟨wires, b, delKey step3.2 "backend", step3.1, none, none⟩

/-- ProjectQIBMBackend.__init__: require user and password keyword
arguments (each missing one raises ValueError), then set the backend
entry and delegate to ProjectQDevice.__init__. -/
def ProjectQIBMBackend.init (wires : Nat) (kwargs : List (String × PyVal)) :
    Except PyErr ProjectQDeviceState :=
  if hasKey kwargs "user" = false then Except.error PyErr.valueError
  else if hasKey kwargs "password" = false then Except.error PyErr.valueError
  else ProjectQDevice.init wires (setKey kwargs "backend" (PyVal.str "IBMBackend"))

/-- A gate application recorded symbolically: the constructed gate (its
class and the parameters it was called with) and the register qubits it
was pipe-applied to, in order. -/
structure GateApp where
  gate : GateCtor × List ℚ
  qubits : List Nat
  deriving DecidableEq, Repr

/-- Python list indexing l[i] for a nonnegative index: IndexError when
out of range. -/
def pyGet {α : Type} (l : List α) (i : Nat) : Except PyErr α :=
  match l.get? i with
  | some x => Except.ok x
  | none => Except.error PyErr.indexError

/-- The list comprehension [reg[i] for i in wires]. -/
def pyGets (reg : List Nat) : List Nat → Except PyErr (List Nat)
  | [] => Except.ok []
  | i :: rest =>
    match pyGet reg i with
    | Except.error e => Except.error e
    | Except.ok q =>
      match pyGets reg rest with
      | Except.error e => Except.error e
      | Except.ok qs => Except.ok (q :: qs)

/-- ProjectQDevice.apply: look the gate name up in the device's operator
map (KeyError when absent), call the constructor on the parameters, and
apply the gate to the register qubits selected by wires, in order. -/
def ProjectQDevice.apply (operator_map : List (String × GateCtor))
    (reg : List Nat) (gate_name : String) (wires : List Nat) (par : List ℚ) :
    Except PyErr GateApp :=
  match dictLookup operator_map gate_name with
  | none => Except.error PyErr.keyError
  | some c =>
    match pyGets reg wires with
    | Except.error e => Except.error e
    | Except.ok qs => Except.ok ⟨(c, par), qs⟩

/-- Observable side effects on the wrapped engine. -/
inductive Effect where
  | measureAll (reg : Option (List Nat))
  deriving DecidableEq, Repr

/-- ProjectQDevice._deallocate: measure the whole register, but only
when an engine exists and the backend is the Simulator. -/
def ProjectQDevice._deallocate (d : ProjectQDeviceState) :
    ProjectQDeviceState × List Effect :=
  if d.eng ≠ none ∧ d.backend = PyVal.str "Simulator" then
    (d, [Effect.measureAll d.reg])
  else (d, [])

/-- ProjectQDevice.post_expectations: delegates to _deallocate. -/
def ProjectQDevice.post_expectations (d : ProjectQDeviceState) :
    ProjectQDeviceState × List Effect :=
  ProjectQDevice._deallocate d

/-- The wires argument of expectation: a Python int or a list of ints. -/
def WiresArg : Type := Sum Nat (List Nat)

/-- Wire selection shared by both expectation methods: an int is used
directly, otherwise the first element of the list (IndexError when the
list is empty). -/
def wireOf : WiresArg → Except PyErr Nat
  | Sum.inl w => Except.ok w
  | Sum.inr [] => Except.error PyErr.indexError
  | Sum.inr (w :: _) => Except.ok w

/-- ProjectQSimulator.expectation: for PauliX, PauliY or PauliZ, ask the
backend oracle for the expectation value of the one-qubit QubitOperator
built from the observable's last letter on reg[wire]; any other
observable raises DeviceError. -/
def ProjectQSimulator.expectation (getExpVal : Char → Nat → ℚ)
    (reg : List Nat) (observable : String) (wires : WiresArg)
    (par : List ℚ) : Except PyErr ℚ :=
  if observable = "PauliX" ∨ observable = "PauliY" ∨ observable = "PauliZ" then
    match wireOf wires with
    | Except.error e => Except.error e
    | Except.ok wire =>
      match pyGet reg wire with
      | Except.error e => Except.error e
      | Except.ok q => Except.ok (getExpVal observable.back q)
  else Except.error PyErr.deviceError

/-- The generator-expression sum over the probability dictionary:
sum of p over the entries whose state string has character c at
position wire; IndexError when some state string is too short. -/
def bitMass (wire : Nat) (c : Char) :
    List (List Char × ℚ) → Except PyErr ℚ
  | [] => Except.ok 0
  | (state, p) :: rest =>
    match pyGet state wire with
    | Except.error e => Except.error e
    | Except.ok ch =>
      match bitMass wire c rest with
      | Except.error e => Except.error e
      | Except.ok r => Except.ok ((if ch = c then p else 0) + r)

/-- ProjectQIBMBackend.expectation: from the backend's probability
dictionary, for PauliZ return (2*sum over states with bit 1 at the wire
minus 1) minus (2*sum over states with bit 0 at the wire minus 1); any
other observable raises DeviceError. -/
def ProjectQIBMBackend.expectation (probabilities : List (List Char × ℚ))
    (observable : String) (wires : WiresArg) (par : List ℚ) :
    Except PyErr ℚ :=
  if observable = "PauliZ" then
    match wireOf wires with
    | Except.error e => Except.error e
    | Except.ok wire =>
      match bitMass wire '1' probabilities with
      | Except.error e => Except.error e
      | Except.ok s1 =>
        match bitMass wire '0' probabilities with
        | Except.error e => Except.error e
        | Except.ok s0 => Except.ok ((2 * s1 - 1) - (2 * s0 - 1))
  else Except.error PyErr.deviceError

/-- The probability mass, in a probability dictionary, of the states
whose character at the given wire is c. -/
def wireMass (probabilities : List (List Char × ℚ)) (wire : Nat) (c : Char) : ℚ :=
  (probabilities.map (fun sp => if sp.1.get? wire = some c then sp.2 else 0)).sum

/-- Result classifiers for the modelled Python computations. -/
def isDeviceError {α : Type} : Except PyErr α → Bool
  | Except.error PyErr.deviceError => true
  | _ => false

/-- True exactly when the computation raised ValueError. -/
def isValueError {α : Type} : Except PyErr α → Bool
  | Except.error PyErr.valueError => true
  | _ => false

/-- True exactly when the computation returned normally. -/
def isOk {α : Type} : Except PyErr α → Bool
  | Except.ok _ => true
  | _ => false

/-- Helper: a successful dict lookup means the key occurs in the dict. -/
theorem dictLookup_mem {α : Type} {m : List (String × α)} {k : String} {c : α}
    (h : dictLookup m k = some c) : k ∈ m.map Prod.fst := by
  induction m with
  | nil => simp [dictLookup] at h
  | cons kv rest ih =>
    obtain ⟨k0, v0⟩ := kv
    by_cases hk : k0 = k
    · simp [hk]
    · simp only [dictLookup, if_neg hk] at h
      simp [ih h]

/-- Helper: on a dict with distinct keys, a successful lookup in a
filtered dict agrees with a lookup in the unfiltered dict. -/
theorem dictLookup_filter {α : Type} {p : String × α → Bool}
    {m : List (String × α)} {k : String} {c : α}
    (hnd : (m.map Prod.fst).Nodup)
    (h : dictLookup (m.filter p) k = some c) : dictLookup m k = some c := by
  induction m with
  | nil => simpa [dictLookup] using h
  | cons kv rest ih =>
    obtain ⟨k0, v0⟩ := kv
    simp only [List.map_cons, List.nodup_cons] at hnd
    by_cases hp : p (k0, v0)
    · rw [List.filter_cons_of_pos hp] at h
      simp only [dictLookup] at h ⊢
      by_cases hk : k0 = k
      · simpa [hk] using h
      · rw [if_neg hk] at h ⊢
        exact ih hnd.2 h
    · rw [List.filter_cons_of_neg hp] at h
      have hrest : dictLookup rest k = some c := ih hnd.2 h
      simp only [dictLookup]
      by_cases hk : k0 = k
      · exact absurd (hk ▸ dictLookup_mem hrest) hnd.1
      · simpa [if_neg hk] using hrest

/-- Helper: ProjectQDevice.__init__ never raises ValueError; its only
failure mode is the backend lookup. -/
theorem init_not_valueError (wires : Nat) (kwargs0 : List (String × PyVal)) :
    isValueError (ProjectQDevice.init wires kwargs0) = false := by
  simp only [ProjectQDevice.init]
  split <;> rfl

/-- C9: ProjectQClassicalSimulator declares exactly the operations
PauliX and CNOT, and declares no observables at all. -/
theorem classical_simulator_operator_and_observable_maps :
    ProjectQClassicalSimulator._operator_map =
      [("PauliX", GateCtor.XGate), ("CNOT", GateCtor.CNOT)] ∧
    ProjectQClassicalSimulator._observable_map = [] := by
  constructor <;> rfl

/-- C8: for each of the three device subclasses, every name in its
observable map also occurs as a key of its operator map. -/
theorem observable_maps_subset_operator_maps :
    (ProjectQSimulator._observable_map.all (fun kv =>
      hasKey ProjectQSimulator._operator_map kv.1)) = true ∧
    (ProjectQClassicalSimulator._observable_map.all (fun kv =>
      hasKey ProjectQClassicalSimulator._operator_map kv.1)) = true ∧
    (ProjectQIBMBackend._observable_map.all (fun kv =>
      hasKey ProjectQIBMBackend._operator_map kv.1)) = true := by
  refine ⟨?_, ?_, ?_⟩ <;> rfl

/-- C7: post_expectations measures the register exactly when an engine
exists and the backend is the Simulator; in every case the device state
itself is left unchanged, and in every other case no effect occurs. -/
theorem post_expectations_measures_only_simulator (d : ProjectQDeviceState) :
    (ProjectQDevice.post_expectations d).1 = d ∧
    ((ProjectQDevice.post_expectations d).2 = [Effect.measureAll d.reg] ↔
      (d.eng ≠ none ∧ d.backend = PyVal.str "Simulator")) ∧
    ((ProjectQDevice.post_expectations d).2 = [] ↔
      ¬(d.eng ≠ none ∧ d.backend = PyVal.str "Simulator")) := by
  unfold ProjectQDevice.post_expectations ProjectQDevice._deallocate
  by_cases h : d.eng ≠ none ∧ d.backend = PyVal.str "Simulator" <;>
    simp [h]

/-- C5: filter_kwargs_for_backend keeps exactly the entries whose key
occurs in the backend kwargs list (as an order-preserving sublist of the
input), and for ProjectQClassicalSimulator's empty list it always
returns the empty dict. -/
theorem filter_kwargs_for_backend_spec (backend_kwargs : List String)
    (kwargs : List (String × PyVal)) (k : String) (v : PyVal) :
    ((k, v) ∈ ProjectQDevice.filter_kwargs_for_backend backend_kwargs kwargs ↔
      (k, v) ∈ kwargs ∧ k ∈ backend_kwargs) ∧
    (ProjectQDevice.filter_kwargs_for_backend backend_kwargs kwargs).Sublist kwargs ∧
    ProjectQDevice.filter_kwargs_for_backend
      ProjectQClassicalSimulator._backend_kwargs kwargs = [] := by
  refine ⟨?_, ?_, ?_⟩
  · simp [ProjectQDevice.filter_kwargs_for_backend, List.mem_filter]
  · exact List.filter_sublist _
  · simp [ProjectQDevice.filter_kwargs_for_backend,
      ProjectQClassicalSimulator._backend_kwargs]

/-- C4: constructing a ProjectQIBMBackend raises ValueError exactly when
the user entry or the password entry is missing from the keyword
arguments; with both present no ValueError is raised. -/
theorem ibm_init_valueError_iff (wires : Nat) (kwargs : List (String × PyVal)) :
    isValueError (ProjectQIBMBackend.init wires kwargs) = true ↔
      (hasKey kwargs "user" = false ∨ hasKey kwargs "password" = false) := by
  unfold ProjectQIBMBackend.init
  by_cases hu : hasKey kwargs "user" = false
  · simp [hu, isValueError]
  · by_cases hp : hasKey kwargs "password" = false
    · simp [hu, hp, isValueError]
    · simp [hu, hp, init_not_valueError]

/-- Helper: when every state string reaches past the wire, the
generator-expression sum succeeds and equals the probability mass of
the states with the requested character at the wire. -/
theorem bitMass_eq_ok (probabilities : List (List Char × ℚ)) (w : Nat) (c : Char)
    (h : ∀ sp ∈ probabilities, w < sp.1.length) :
    bitMass w c probabilities = Except.ok (wireMass probabilities w c) := by
  induction probabilities with
  | nil => rfl
  | cons sp rest ih =>
    obtain ⟨state, p⟩ := sp
    have hw : w < state.length := h (state, p) (List.mem_cons_self _ _)
    have hch := List.getElem?_eq_getElem hw
    have ihr := ih (fun sp hsp => h sp (List.mem_cons_of_mem _ hsp))
    simp [bitMass, pyGet, hch, ihr, wireMass]

/-- Helper: evaluation of ProjectQSimulator.expectation on a supported
observable with a usable wire argument and register. -/
theorem sim_expectation_eq_ok (getExpVal : Char → Nat → ℚ) (reg : List Nat)
    (observable : String) (wires : WiresArg) (par : List ℚ) (w : Nat)
    (hobs : observable = "PauliX" ∨ observable = "PauliY" ∨ observable = "PauliZ")
    (hw : wireOf wires = Except.ok w) (hreg : w < reg.length) :
    ProjectQSimulator.expectation getExpVal reg observable wires par =
      Except.ok (getExpVal observable.back (reg.getD w 0)) := by
  have hq := List.getElem?_eq_getElem hreg
  unfold ProjectQSimulator.expectation
  rw [if_pos hobs, hw]
  simp [pyGet, hq, List.getD_eq_getElem?_getD]

/-- Helper: ProjectQSimulator.expectation on an unsupported observable
is a DeviceError. -/
theorem sim_expectation_eq_error (getExpVal : Char → Nat → ℚ) (reg : List Nat)
    (observable : String) (wires : WiresArg) (par : List ℚ)
    (hobs : ¬(observable = "PauliX" ∨ observable = "PauliY" ∨ observable = "PauliZ")) :
    ProjectQSimulator.expectation getExpVal reg observable wires par =
      Except.error PyErr.deviceError := by
  unfold ProjectQSimulator.expectation
  rw [if_neg hobs]

/-- Helper: evaluation of ProjectQIBMBackend.expectation on PauliZ with
a usable wire argument: the raw source-order formula. -/
theorem ibm_expectation_eq_ok (probabilities : List (List Char × ℚ))
    (observable : String) (wires : WiresArg) (par : List ℚ) (w : Nat)
    (hz : observable = "PauliZ") (hw : wireOf wires = Except.ok w)
    (hlen : ∀ sp ∈ probabilities, w < sp.1.length) :
    ProjectQIBMBackend.expectation probabilities observable wires par =
      Except.ok ((2 * wireMass probabilities w '1' - 1) -
        (2 * wireMass probabilities w '0' - 1)) := by
  subst hz
  have e1 := bitMass_eq_ok probabilities w '1' hlen
  have e0 := bitMass_eq_ok probabilities w '0' hlen
  unfold ProjectQIBMBackend.expectation
  rw [if_pos rfl, hw]
  simp [e1, e0]

/-- Helper: ProjectQIBMBackend.expectation on an observable other than
PauliZ is a DeviceError. -/
theorem ibm_expectation_eq_error (probabilities : List (List Char × ℚ))
    (observable : String) (wires : WiresArg) (par : List ℚ)
    (hz : ¬observable = "PauliZ") :
    ProjectQIBMBackend.expectation probabilities observable wires par =
      Except.error PyErr.deviceError := by
  unfold ProjectQIBMBackend.expectation
  rw [if_neg hz]

/-- C1: for every probability dictionary and wire, the IBM backend's
PauliZ expectation equals (2 times the mass of states with bit 1 at the
wire minus 1) minus (2 times the mass of states with bit 0 minus 1),
that is, 2 times P(1) minus 2 times P(0). -/
theorem ibm_expectation_is_2p1_minus_2p0 (probabilities : List (List Char × ℚ))
    (wires : WiresArg) (par : List ℚ) (w : Nat)
    (hw : wireOf wires = Except.ok w)
    (hlen : ∀ sp ∈ probabilities, w < sp.1.length) :
    ProjectQIBMBackend.expectation probabilities "PauliZ" wires par =
      Except.ok (2 * wireMass probabilities w '1' - 2 * wireMass probabilities w '0') := by
  rw [ibm_expectation_eq_ok probabilities "PauliZ" wires par w rfl hw hlen]
  congr 1
  ring

/-- Witness for C1 at the uniform one-qubit distribution. -/
theorem ibm_expectation_is_2p1_minus_2p0_witness :
    ProjectQIBMBackend.expectation [(['0'], (1:ℚ)/2), (['1'], 1/2)] "PauliZ"
        (Sum.inl 0) [] =
      Except.ok (2 * wireMass [(['0'], (1:ℚ)/2), (['1'], 1/2)] 0 '1' -
        2 * wireMass [(['0'], (1:ℚ)/2), (['1'], 1/2)] 0 '0') :=
  ibm_expectation_is_2p1_minus_2p0 _ _ _ 0 rfl (by decide)

/-- C2 (code bug): at the two-outcome distribution putting all mass on
outcome 1 (so P(0) plus P(1) is 1), the IBM backend's PauliZ value is 2,
which is not 1 minus 2 times P(1): the post-processing is not the
plus-or-minus-1-scaled expectation value the spec describes. -/
theorem ibm_expectation_differs_from_one_minus_2p1 :
    ProjectQIBMBackend.expectation [(['1'], (1:ℚ))] "PauliZ" (Sum.inl 0) [] =
      Except.ok 2 ∧
    wireMass [(['1'], (1:ℚ))] 0 '0' + wireMass [(['1'], (1:ℚ))] 0 '1' = 1 ∧
    (2 : ℚ) ≠ 1 - 2 * wireMass [(['1'], (1:ℚ))] 0 '1' := by
  have h10 : ¬('1' : Char) = '0' := by decide
  refine ⟨?_, ?_, ?_⟩
  · norm_num [ProjectQIBMBackend.expectation, wireOf, bitMass, pyGet, h10]
  · norm_num [wireMass, h10]
  · norm_num [wireMass, h10]

/-- C3: both expectation methods raise DeviceError exactly for the
observable names outside their supported set, and for supported names
(given a usable wire argument, register and probability dictionary)
they return a value without raising. -/
theorem expectation_deviceError_exactly_for_unsupported
    (getExpVal : Char → Nat → ℚ) (reg : List Nat)
    (probabilities : List (List Char × ℚ)) (observable : String)
    (wires : WiresArg) (par : List ℚ) (w : Nat)
    (hw : wireOf wires = Except.ok w) (hreg : w < reg.length)
    (hlen : ∀ sp ∈ probabilities, w < sp.1.length) :
    (isDeviceError (ProjectQSimulator.expectation getExpVal reg observable wires par) = true ↔
      ¬(observable = "PauliX" ∨ observable = "PauliY" ∨ observable = "PauliZ")) ∧
    (isDeviceError (ProjectQIBMBackend.expectation probabilities observable wires par) = true ↔
      ¬observable = "PauliZ") ∧
    ((observable = "PauliX" ∨ observable = "PauliY" ∨ observable = "PauliZ") →
      isOk (ProjectQSimulator.expectation getExpVal reg observable wires par) = true) ∧
    (observable = "PauliZ" →
      isOk (ProjectQIBMBackend.expectation probabilities observable wires par) = true) := by
  by_cases hobs : observable = "PauliX" ∨ observable = "PauliY" ∨ observable = "PauliZ"
  · by_cases hz : observable = "PauliZ"
    · rw [sim_expectation_eq_ok getExpVal reg observable wires par w hobs hw hreg,
        ibm_expectation_eq_ok probabilities observable wires par w hz hw hlen]
      simp [isDeviceError, isOk, hobs, hz]
    · rw [sim_expectation_eq_ok getExpVal reg observable wires par w hobs hw hreg,
        ibm_expectation_eq_error probabilities observable wires par hz]
      simp [isDeviceError, isOk, hobs, hz]
      tauto
  · have hz : ¬observable = "PauliZ" := fun h => hobs (Or.inr (Or.inr h))
    rw [sim_expectation_eq_error getExpVal reg observable wires par hobs,
      ibm_expectation_eq_error probabilities observable wires par hz]
    simp [isDeviceError, isOk, hobs, hz]
    tauto

/-- Witness for C3 at observable PauliZ, wire 0, a one-qubit register
and a one-state probability dictionary. -/
theorem expectation_deviceError_exactly_for_unsupported_witness :
    (isDeviceError (ProjectQSimulator.expectation (fun _ _ => 0) [7] "PauliZ"
        (Sum.inl 0) []) = true ↔
      ¬("PauliZ" = "PauliX" ∨ "PauliZ" = "PauliY" ∨ "PauliZ" = "PauliZ")) ∧
    (isDeviceError (ProjectQIBMBackend.expectation [(['0'], (1:ℚ))] "PauliZ"
        (Sum.inl 0) []) = true ↔
      ¬"PauliZ" = "PauliZ") ∧
    (("PauliZ" = "PauliX" ∨ "PauliZ" = "PauliY" ∨ "PauliZ" = "PauliZ") →
      isOk (ProjectQSimulator.expectation (fun _ _ => 0) [7] "PauliZ"
        (Sum.inl 0) []) = true) ∧
    ("PauliZ" = "PauliZ" →
      isOk (ProjectQIBMBackend.expectation [(['0'], (1:ℚ))] "PauliZ"
        (Sum.inl 0) []) = true) :=
  expectation_deviceError_exactly_for_unsupported (fun _ _ => 0) [7]
    [(['0'], (1:ℚ))] "PauliZ" (Sum.inl 0) [] 0 rfl (by decide) (by decide)

/-- Helper: when every wire index is in range, the register selection
comprehension returns exactly the indexed qubits in wire order. -/
theorem pyGets_eq_ok (reg : List Nat) (wires : List Nat)
    (h : ∀ i ∈ wires, i < reg.length) :
    pyGets reg wires = Except.ok (wires.map (fun i => reg.getD i 0)) := by
  induction wires with
  | nil => rfl
  | cons i rest ih =>
    have hi : i < reg.length := h i (List.mem_cons_self _ _)
    have hq := List.getElem?_eq_getElem hi
    have ihr := ih (fun j hj => h j (List.mem_cons_of_mem _ hj))
    simp [pyGets, pyGet, hq, ihr, List.getD_eq_getElem?_getD]

/-- C6: for every gate name in a device's operator map, apply builds the
gate from the constructor the static translation table assigns to that
name, called on the parameters, and applies it to the register qubits
selected by the wire indices in their given order. -/
theorem apply_uses_static_table (opmap : List (String × GateCtor))
    (hop : opmap = ProjectQSimulator._operator_map ∨
      opmap = ProjectQClassicalSimulator._operator_map ∨
      opmap = ProjectQIBMBackend._operator_map)
    (reg : List Nat) (gate_name : String) (c : GateCtor)
    (hc : dictLookup opmap gate_name = some c)
    (wires : List Nat) (par : List ℚ)
    (hw : ∀ i ∈ wires, i < reg.length) :
    dictLookup projectq_operator_map gate_name = some c ∧
    ProjectQDevice.apply opmap reg gate_name wires par =
      Except.ok ⟨(c, par), wires.map (fun i => reg.getD i 0)⟩ := by
  have hnd : (projectq_operator_map.map Prod.fst).Nodup := by decide
  have hfull : dictLookup projectq_operator_map gate_name = some c := by
    rcases hop with h | h | h <;> subst h
    · exact hc
    · exact dictLookup_filter hnd hc
    · exact dictLookup_filter hnd hc
  exact ⟨hfull, by simp [ProjectQDevice.apply, hc, pyGets_eq_ok reg wires hw]⟩

/-- Witness for C6: CNOT on the classical simulator's map, wires 0 and
1 of a two-qubit register. -/
theorem apply_uses_static_table_witness :
    dictLookup projectq_operator_map "CNOT" = some GateCtor.CNOT ∧
    ProjectQDevice.apply ProjectQClassicalSimulator._operator_map [5, 9] "CNOT"
        [0, 1] [] =
      Except.ok ⟨(GateCtor.CNOT, []), [0, 1].map (fun i => [5, 9].getD i 0)⟩ :=
  apply_uses_static_table ProjectQClassicalSimulator._operator_map
    (Or.inr (Or.inl rfl)) [5, 9] "CNOT" GateCtor.CNOT (by decide) [0, 1] []
    (by decide)

/-- C10: with a supported observable, both expectation methods give the
same result for an int wire argument and for a wire list starting with
that wire; only the first list element is used. -/
theorem expectation_uses_first_wire
    (getExpVal : Char → Nat → ℚ) (reg : List Nat)
    (probabilities : List (List Char × ℚ)) (observable : String)
    (w : Nat) (rest : List Nat) (par : List ℚ)
    (hobs : observable = "PauliX" ∨ observable = "PauliY" ∨ observable = "PauliZ") :
    ProjectQSimulator.expectation getExpVal reg observable (Sum.inl w) par =
      ProjectQSimulator.expectation getExpVal reg observable (Sum.inr (w :: rest)) par ∧
    ProjectQIBMBackend.expectation probabilities observable (Sum.inl w) par =
      ProjectQIBMBackend.expectation probabilities observable (Sum.inr (w :: rest)) par := by
  constructor <;>
    simp [ProjectQSimulator.expectation, ProjectQIBMBackend.expectation, wireOf]

/-- Witness for C10 at observable PauliX, wire 0 against a wire list
starting with 0. -/
theorem expectation_uses_first_wire_witness :
    (ProjectQSimulator.expectation (fun _ _ => 0) [3] "PauliX" (Sum.inl 0) [] =
      ProjectQSimulator.expectation (fun _ _ => 0) [3] "PauliX" (Sum.inr (0 :: [4])) []) ∧
    (ProjectQIBMBackend.expectation [] "PauliX" (Sum.inl 0) [] =
      ProjectQIBMBackend.expectation [] "PauliX" (Sum.inr (0 :: [4])) []) :=
  expectation_uses_first_wire (fun _ _ => 0) [3] [] "PauliX" 0 [4] [] (Or.inl rfl)
